import Mathlib

/-!
Verification development for the Python_server repository (src/server.py).

The file shallowly embeds the per-request behaviour of `RequestHandler`:
the inline resolution logic of `do_GET`, the content logic of
`handle_file`, the error rendering of `handle_error`/`send_content`, and
the (never invoked) `Cases` rule chain made of the `case_*` classes.
Filesystem access is modelled as an abstract read-only map from path
strings to existence/file-kind/content, mirroring `os.path.exists`,
`os.path.isfile` and `open(...).read()`.
-/

namespace PyServer

/-- File and body contents are byte sequences; each entry is a byte value. -/
abbrev Bytes := List Nat

/-- UTF-8 encoding of a single Unicode scalar value (standard 1-4 byte form),
mirroring what Python's `str.encode("utf-8")` produces per character. -/
def utf8EncodeChar (c : Char) : Bytes :=
  let n := c.toNat
  if n < 0x80 then [n]
  else if n < 0x800 then [0xC0 + n / 0x40, 0x80 + n % 0x40]
  else if n < 0x10000 then
    [0xE0 + n / 0x1000, 0x80 + (n / 0x40) % 0x40, 0x80 + n % 0x40]
  else
    [0xF0 + n / 0x40000, 0x80 + (n / 0x1000) % 0x40,
     0x80 + (n / 0x40) % 0x40, 0x80 + n % 0x40]

/-- UTF-8 encoding of a string, mirroring Python's `str.encode("utf-8")`. -/
def utf8Encode (s : String) : Bytes :=
  s.data.foldr (fun c acc => utf8EncodeChar c ++ acc) []

/-- A byte is a UTF-8 continuation byte (0x80-0xBF). -/
def contOk (c : Nat) : Bool := 0x80 ≤ c && c ≤ 0xBF

/-- Strict UTF-8 decoding, mirroring Python's `bytes.decode("utf-8")`:
rejects stray continuation bytes, overlong encodings, surrogates and
values above 0x10FFFF.  `none` corresponds to `UnicodeDecodeError`. -/
def utf8Decode : Bytes → Option (List Char)
  | [] => some []
  | b :: rest =>
    if b ≤ 0x7F then
      match utf8Decode rest with
      | some cs => some (Char.ofNat b :: cs)
      | none => none
    else if b ≤ 0xC1 then none
    else if b ≤ 0xDF then
      match rest with
      | c1 :: rest1 =>
        if contOk c1 then
          match utf8Decode rest1 with
          | some cs => some (Char.ofNat ((b - 0xC0) * 0x40 + (c1 - 0x80)) :: cs)
          | none => none
        else none
      | [] => none
    else if b ≤ 0xEF then
      match rest with
      | c1 :: c2 :: rest2 =>
        if contOk c1 && contOk c2 then
          let v := (b - 0xE0) * 0x1000 + (c1 - 0x80) * 0x40 + (c2 - 0x80)
          if 0x800 ≤ v && !(0xD800 ≤ v && v ≤ 0xDFFF) then
            match utf8Decode rest2 with
            | some cs => some (Char.ofNat v :: cs)
            | none => none
          else none
        else none
      | _ => none
    else if b ≤ 0xF4 then
      match rest with
      | c1 :: c2 :: c3 :: rest3 =>
        if contOk c1 && contOk c2 && contOk c3 then
          let v := (b - 0xF0) * 0x40000 + (c1 - 0x80) * 0x1000 +
                   (c2 - 0x80) * 0x40 + (c3 - 0x80)
          if 0x10000 ≤ v && v ≤ 0x10FFFF then
            match utf8Decode rest3 with
            | some cs => some (Char.ofNat v :: cs)
            | none => none
          else none
        else none
      | _ => none
    else none

/-- The whitespace characters stripped by Python's `str.strip()`
(restricted to the ASCII whitespace set, which is all the server's
path handling can meet in an HTTP request line). -/
def isPyWs (c : Char) : Bool :=
  c == ' ' || c == '\t' || c == '\n' || c == '\r' || c == '\x0b' || c == '\x0c'

/-- Python `path.strip()`: drop leading and trailing whitespace. -/
def pyStrip (s : String) : String :=
  String.mk (((s.data.dropWhile isPyWs).reverse.dropWhile isPyWs).reverse)

/-- Python `path.lstrip("/")`: drop every leading slash. -/
def pyLstrip (s : String) : String :=
  String.mk (s.data.dropWhile (fun c => c == '/'))

/-- `pre` is a prefix of `s` (Python `s.startswith(pre)`). -/
def strStarts (s pre : String) : Bool := pre.data.isPrefixOf s.data

/-- `pat` occurs as a contiguous run inside `l` (Python `pat in l`). -/
def listInfix [BEq α] (pat : List α) : List α → Bool
  | [] => pat.isEmpty
  | a :: rest => pat.isPrefixOf (a :: rest) || listInfix pat rest

/-- `post` is a suffix of `s` (Python `s.endswith(post)`). -/
def strEnds (s post : String) : Bool := post.data.isSuffixOf s.data

/-- POSIX `os.path.join(a, b)` for a single join: an absolute second
component replaces the first, otherwise the components are joined with a
separating slash (none added when `a` is empty or already ends in one). -/
def osJoin (a b : String) : String :=
  if strStarts b "/" then b
  else if a == "" || strEnds a "/" then a ++ b
  else a ++ "/" ++ b

/-- The default-page test of `do_GET` (and of `case_default_page.test`):
`self.path == "/" or self.path.strip() == ""`. -/
def isDefaultPath (p : String) : Bool :=
  p == "/" || pyStrip p == ""

/-- The file path `do_GET` resolves a request path to (lines 140-146):
join the current directory with the path stripped of leading slashes,
then overwrite with `current_dir/index.html` when the default test holds. -/
def resolvedFilePath (root p : String) : String :=
  if isDefaultPath p then osJoin root "index.html"
  else osJoin root (pyLstrip p)

/-- The exceptions the handler code can raise, as plain data. -/
inductive PyExc where
  /-- `KeyError` from `str.format(**values)` on an unsupported placeholder. -/
  | keyError (name : String)
  /-- `ValueError` from `str.format` on malformed brace syntax. -/
  | valueError (msg : String)
  /-- `UnicodeDecodeError` from `bytes.decode("utf-8")`. -/
  | unicodeDecodeError
  /-- `AttributeError`, raised when `handle_file`'s `except IOError` branch
  calls `self.send_error_page`, which is not an attribute of the handler
  (it is only a dead nested function inside `handle_file`'s body). -/
  | attributeError (msg : String)
deriving DecidableEq

/-- Python's `str(e)` rendering of each exception, as interpolated into
the 500 message by `do_GET` (the decode-error text elides the
byte-position suffix, which nothing observable depends on). -/
def excStr : PyExc → String
  | .keyError n => "\x27" ++ n ++ "\x27"
  | .valueError m => m
  | .unicodeDecodeError => "\x27utf-8\x27 codec error"
  | .attributeError m => m

/-- The opening format brace character. -/
def obrace : Char := '\x7b'

/-- The closing format brace character. -/
def cbrace : Char := '\x7d'

/-- Scan a replacement-field body up to the closing brace; returns the
field name and the remaining characters, or `none` when the brace is
never closed. -/
def takeFieldName (cs : List Char) : Option (String × List Char) :=
  match cs.dropWhile (fun c => c != cbrace) with
  | [] => none
  | _ :: rest2 => some (String.mk (cs.takeWhile (fun c => c != cbrace)), rest2)

/-- Fuel-indexed core of the `str.format(**values)` model.  Handles
literal text, doubled-brace escapes, and simple `\x7bname\x7d`
replacement fields (the only format features the server's templates
use); an unknown field name is a `KeyError`, a lone brace a
`ValueError`.  Each step consumes at least one character, so fuel of
`length + 1` can never run out; the fuel case is an unreachable artifact. -/
def pyFormatGo (vals : List (String × String)) : Nat → List Char → Except PyExc String
  | 0, _ => .error (.valueError "format fuel exhausted")
  | _ + 1, [] => .ok ""
  | fuel + 1, c :: rest =>
    if c = obrace then
      match rest with
      | c2 :: rest2 =>
        if c2 = obrace then
          match pyFormatGo vals fuel rest2 with
          | .ok s => .ok (obrace.toString ++ s)
          | .error e => .error e
        else
          match takeFieldName rest with
          | none => .error (.valueError "Single \x7b encountered in format string")
          | some (name, rest3) =>
            match List.lookup name vals with
            | none => .error (.keyError name)
            | some v =>
              match pyFormatGo vals fuel rest3 with
              | .ok s => .ok (v ++ s)
              | .error e => .error e
      | [] => .error (.valueError "Single \x7b encountered in format string")
    else if c = cbrace then
      match rest with
      | c2 :: rest2 =>
        if c2 = cbrace then
          match pyFormatGo vals fuel rest2 with
          | .ok s => .ok (cbrace.toString ++ s)
          | .error e => .error e
        else .error (.valueError "Single \x7d encountered in format string")
      | [] => .error (.valueError "Single \x7d encountered in format string")
    else
      match pyFormatGo vals fuel rest with
      | .ok s => .ok (c.toString ++ s)
      | .error e => .error e

/-- Python `template.format(**vals)` restricted to simple named fields. -/
def pyFormat (vals : List (String × String)) (cs : List Char) : Except PyExc String :=
  pyFormatGo vals (cs.length + 1) cs

/-- The per-request data `BaseHTTPRequestHandler` exposes to the handler:
`self.path`, `self.client_address`, `self.command`, and the value
`self.date_time_string()` returns during this request. -/
structure RequestMeta where
  path : String
  clientHost : String
  clientPort : Nat
  command : String
  dateTime : String
deriving DecidableEq

/-- The `values` dictionary built in `handle_file` (lines 183-189); the
integer client port is rendered by `str.format` as its decimal string. -/
def templateValues (meta : RequestMeta) : List (String × String) :=
  [("date_time", meta.dateTime),
   ("client_host", meta.clientHost),
   ("client_port", toString meta.clientPort),
   ("command", meta.command),
   ("path", meta.path)]

/-- Read-only abstraction of the filesystem the server runs over:
`os.path.exists`, `os.path.isfile`, the bytes `open(p,'rb').read()`
returns, and whether that open/read raises `IOError`. -/
structure FileSystem where
  pathExists : String → Bool
  isFile : String → Bool
  readBytes : String → Bytes
  readFails : String → Bool

/-- One HTTP response as written on the wire by the handler: status line,
the content-type header (name and value as the code spells them), the
Content-Length header value, and the body bytes. -/
structure HttpResponse where
  status : Nat
  ctName : String
  contentType : String
  contentLength : Nat
  body : Bytes
deriving DecidableEq

/-- Text of the `Error_Page` template up to the `\x7bpath\x7d` field. -/
def errHead (code : Nat) : String :=
  "        <html>\n        <body>\n        <h1>" ++ toString code ++
    " - Error accessing "

/-- Text of the `Error_Page` template after the `\x7bpath\x7d` field. -/
def errTail (msg dateTime : String) : String :=
  "</h1>\n        <p>" ++ msg ++ "</p>\n        <hr>\n        <p>Server Time: " ++
    dateTime ++ "</p>\n        </body>\n        </html>\n        "

/-- `Error_Page.format(code=code, path=path, msg=msg, date_time=date_time)`
from `handle_error` (lines 95-118), flattened into the concatenation the
fixed template produces. -/
def errorContent (code : Nat) (path msg dateTime : String) : String :=
  errHead code ++ path ++ errTail msg dateTime

/-- `send_content(content, status)` (lines 123-132): note it always sends
the header `Content-type: text/html` and `Content-Length = len(content)`. -/
def sendContent (content : Bytes) (status : Nat) : HttpResponse :=
  { status := status, ctName := "Content-type", contentType := "text/html",
    contentLength := content.length, body := content }

/-- `handle_error(code, msg)` (lines 107-120): render `Error_Page` with
the request path and server time, encode as UTF-8, send with `code`. -/
def handleError (meta : RequestMeta) (code : Nat) (msg : String) : HttpResponse :=
  sendContent (utf8Encode (errorContent code meta.path msg meta.dateTime)) code

/-- The observable result of a `handle_file` call that returns normally:
the final values of the local variables `page` and `page_type`, and the
responses actually written to the client.  Because the send block
(lines 199-205) is indented inside the `else` branch, `sent` is empty
for `.html` and `.txt` paths. -/
structure FileResult where
  page : Bytes
  pageType : String
  sent : List HttpResponse
deriving DecidableEq

/-- `handle_file(full_path)` (lines 172-208).  An `IOError` on reading is
caught, but the except branch calls the nonexistent attribute
`self.send_error_page`, so an `AttributeError` escapes instead.  For
`.html` paths the bytes are decoded as UTF-8 (`UnicodeDecodeError`
escapes on failure) and templated with `str.format(**values)`
(`KeyError`/`ValueError` escape on failure); the result is re-encoded
into `page` but nothing is sent.  For `.txt` paths nothing is sent
either.  Only the `application/octet-stream` branch contains the
`send_response`/headers/body block. -/
def handleFile (fs : FileSystem) (meta : RequestMeta) (fullPath : String) :
    Except PyExc FileResult :=
  if fs.readFails fullPath then
    .error (.attributeError
      "\x27RequestHandler\x27 object has no attribute \x27send_error_page\x27")
  else
    let page := fs.readBytes fullPath
    if strEnds fullPath ".html" then
      match utf8Decode page with
      | none => .error .unicodeDecodeError
      | some cs =>
        match pyFormat (templateValues meta) cs with
        | .error e => .error e
        | .ok s => .ok { page := utf8Encode s, pageType := "text/html", sent := [] }
    else if strEnds fullPath ".txt" then
      .ok { page := page, pageType := "text/plain", sent := [] }
    else
      .ok { page := page, pageType := "application/octet-stream",
            sent := [{ status := 200, ctName := "Content-Type",
                       contentType := "application/octet-stream",
                       contentLength := page.length, body := page }] }

/-- `do_GET` (lines 134-169): resolve the file path, send a 404 when it
does not exist, a 404 when it is not a regular file, otherwise call
`handle_file`; any exception escaping is caught and turned into a 500
via `handle_error` (the `ServerException` branch is dead code — nothing
in the module ever raises it).  The result lists every response written
to the client during the request, in order. -/
def doGET (root : String) (fs : FileSystem) (meta : RequestMeta) :
    List HttpResponse :=
  let fp := resolvedFilePath root meta.path
  if fs.pathExists fp = false then
    [handleError meta 404 "Requested file does not exist."]
  else if fs.isFile fp = false then
    [handleError meta 404 "Path is not a file (directory listing not supported)."]
  else
    match handleFile fs meta fp with
    | .ok r => r.sent
    | .error e =>
      [handleError meta 500 ("An unexpected error occurred: " ++ excStr e)]

/-- Which member of the `Cases` list (lines 89-92) is the first whose
`test` succeeds, together with the `full_path` value the tests leave on
the handler.  Mirrors the mutable-field threading of the `case_*`
classes: `case_default_page.test` checks the default-path condition and
that `root/index.html` exists and is a file; `case_no_file.test`
recomputes `full_path` from the request path and fires when it does not
exist; `case_existing_file.test` fires when it is a regular file;
`case_always_fail.test` always fires. -/
inductive CaseOutcome where
  | defaultPage (fullPath : String)
  | noFile
  | existingFile (fullPath : String)
  | alwaysFail
deriving DecidableEq

/-- First-match evaluation of the `Cases` chain's `test` methods.  This
chain is defined in the source but never invoked: `do_GET` inlines its
own resolution logic instead. -/
def casesResolve (root : String) (fs : FileSystem) (p : String) : CaseOutcome :=
  if isDefaultPath p &&
      (fs.pathExists (osJoin root "index.html") &&
       fs.isFile (osJoin root "index.html")) then
    .defaultPage (osJoin root "index.html")
  else
    let fp := osJoin root (pyLstrip p)
    if fs.pathExists fp = false then .noFile
    else if fs.isFile fp then .existingFile fp
    else .alwaysFail

/-- The responses the `act` of the first matching `Cases` rule would
write: `case_no_file.act` and `case_always_fail.act` call `handle_error`
with their own message texts (lines 53-55 and 79-81), the other two call
`handle_file`; an escaping exception would reach `do_GET`'s boundary. -/
def casesRun (root : String) (fs : FileSystem) (meta : RequestMeta) :
    List HttpResponse :=
  match casesResolve root fs meta.path with
  | .noFile =>
    [handleError meta 404 ("\x27" ++ meta.path ++ "\x27 not found")]
  | .alwaysFail =>
    [handleError meta 404
      ("Unknown object \x27" ++ meta.path ++ "\x27 or directory listing disabled.")]
  | .defaultPage fp | .existingFile fp =>
    match handleFile fs meta fp with
    | .ok r => r.sent
    | .error e =>
      [handleError meta 500 ("An unexpected error occurred: " ++ excStr e)]

/-- Split a character list at every slash (like Python `s.split("/")`). -/
def splitSlash : List Char → List (List Char)
  | [] => [[]]
  | c :: rest =>
    match splitSlash rest with
    | [] => [[c]]
    | g :: gs => if c = '/' then [] :: g :: gs else (c :: g) :: gs

/-- Modelled from the spec: the canonicalization of an absolute POSIX
path that the operating system performs when `os.path.exists`/`open`
resolve `.` and `..` segments (the spec's "canonicalize the joined
path"; the source contains no such step).  Used only to state when a
joined path escapes the server root. -/
def normalizePosix (s : String) : String :=
  "/" ++ String.intercalate "/"
    (((splitSlash s.data).map String.mk).foldl
      (fun acc seg =>
        if seg == "" || seg == "." then acc
        else if seg == ".." then acc.dropLast
        else acc ++ [seg]) [])

/-- Modelled from the spec: a canonical path lies under the server root
when it is the root itself or extends it below a slash. -/
def underRoot (root q : String) : Bool :=
  root == q || strStarts q (root ++ "/")

/-- One step of the resolution sequence `do_GET` inlines: a test on the
resolved file path and the responses written when the test fires. -/
structure GetRule where
  test : FileSystem → String → Bool
  run : FileSystem → RequestMeta → String → List HttpResponse

/-- Step 3 of `do_GET`: the resolved path does not exist. -/
def ruleNoFile : GetRule :=
  { test := fun fs fp => !(fs.pathExists fp),
    run := fun _ meta _ => [handleError meta 404 "Requested file does not exist."] }

/-- Step 4 of `do_GET`: the resolved path is not a regular file. -/
def ruleNotAFile : GetRule :=
  { test := fun fs fp => !(fs.isFile fp),
    run := fun _ meta _ =>
      [handleError meta 404 "Path is not a file (directory listing not supported)."] }

/-- Step 5 of `do_GET`: serve the file, converting any escaping
exception into a 500 at the handler boundary. -/
def ruleServe : GetRule :=
  { test := fun _ _ => true,
    run := fun fs meta fp =>
      match handleFile fs meta fp with
      | .ok r => r.sent
      | .error e =>
        [handleError meta 500 ("An unexpected error occurred: " ++ excStr e)] }

/-- The inline resolution chain of `do_GET`, in evaluation order. -/
def getChain : List GetRule := [ruleNoFile, ruleNotAFile, ruleServe]

/-- First-match evaluation of a rule list: the first rule whose test
succeeds runs; later rules are never consulted. -/
def firstMatch : List GetRule → FileSystem → RequestMeta → String → List HttpResponse
  | [], _, _, _ => []
  | r :: rs, fs, meta, fp =>
    if r.test fs fp then r.run fs meta fp else firstMatch rs fs meta fp

/-- The request path occurs literally in every rendered error page (it is
spliced between the fixed head and tail of the `Error_Page` template). -/
theorem path_infix_errorContent (code : Nat) (p msg dt : String) :
    p.data <:+: (errorContent code p msg dt).data := by
  refine ⟨(errHead code).data, (errTail msg dt).data, ?_⟩
  simp [errorContent]

/-! ### Concrete fixtures used by the per-claim evaluations -/

/-- Filesystem where only the traversal target outside the root exists. -/
def fsC1 : FileSystem :=
  { pathExists := fun q => q == "/srv/www/../secret.bin",
    isFile := fun q => q == "/srv/www/../secret.bin",
    readBytes := fun q => if q == "/srv/www/../secret.bin" then [1, 2, 3] else [],
    readFails := fun _ => false }

/-- Request for `/../secret.bin`. -/
def metaC1 : RequestMeta :=
  { path := "/../secret.bin", clientHost := "10.0.0.9", clientPort := 4242,
    command := "GET", dateTime := "dt1" }

/-- Filesystem with an existing `.txt` file and an existing binary file. -/
def fsC2 : FileSystem :=
  { pathExists := fun q => q == "/srv/notes.txt" || q == "/srv/data.bin",
    isFile := fun q => q == "/srv/notes.txt" || q == "/srv/data.bin",
    readBytes := fun q =>
      if q == "/srv/notes.txt" then utf8Encode "hello"
      else if q == "/srv/data.bin" then [0, 255, 7] else [],
    readFails := fun _ => false }

/-- Request for `/notes.txt`. -/
def metaC2 : RequestMeta :=
  { path := "/notes.txt", clientHost := "127.0.0.1", clientPort := 40000,
    command := "GET", dateTime := "dt2" }

/-- Request for `/data.bin`. -/
def metaC2b : RequestMeta :=
  { path := "/data.bin", clientHost := "127.0.0.1", clientPort := 40001,
    command := "GET", dateTime := "dt2b" }

/-- Filesystem with one existing HTML file free of placeholders. -/
def fsC3 : FileSystem :=
  { pathExists := fun q => q == "/srv/page.html",
    isFile := fun q => q == "/srv/page.html",
    readBytes := fun q => if q == "/srv/page.html" then utf8Encode "<p>hi</p>" else [],
    readFails := fun _ => false }

/-- Request for `/page.html`. -/
def metaC3 : RequestMeta :=
  { path := "/page.html", clientHost := "127.0.0.1", clientPort := 40100,
    command := "GET", dateTime := "dt3" }

/-- Filesystem whose root holds an `index.html` with a `path` placeholder. -/
def fsC4 : FileSystem :=
  { pathExists := fun q => q == "/srv/index.html" || q == "/srv/",
    isFile := fun q => q == "/srv/index.html",
    readBytes := fun q =>
      if q == "/srv/index.html" then utf8Encode "<p>\x7bpath\x7d</p>" else [],
    readFails := fun _ => false }

/-- Filesystem whose root directory exists but has no `index.html`. -/
def fsC4b : FileSystem :=
  { pathExists := fun q => q == "/srv/",
    isFile := fun _ => false,
    readBytes := fun _ => [], readFails := fun _ => false }

/-- Request for `/`. -/
def metaC4 : RequestMeta :=
  { path := "/", clientHost := "127.0.0.1", clientPort := 40200,
    command := "GET", dateTime := "dt4" }

/-- Empty filesystem: nothing exists. -/
def fsC5 : FileSystem :=
  { pathExists := fun _ => false, isFile := fun _ => false,
    readBytes := fun _ => [], readFails := fun _ => false }

/-- Request for the absent `/missing.txt`. -/
def metaC5 : RequestMeta :=
  { path := "/missing.txt", clientHost := "127.0.0.1", clientPort := 40300,
    command := "GET", dateTime := "dt5" }

/-- Filesystem where `/srv/subdir` exists but is a directory. -/
def fsC6 : FileSystem :=
  { pathExists := fun q => q == "/srv/subdir",
    isFile := fun _ => false,
    readBytes := fun _ => [], readFails := fun _ => false }

/-- Request for the directory `/subdir`. -/
def metaC6 : RequestMeta :=
  { path := "/subdir", clientHost := "127.0.0.1", clientPort := 40400,
    command := "GET", dateTime := "dt6" }

/-- Filesystem with an HTML file whose placeholder is unsupported. -/
def fsC7 : FileSystem :=
  { pathExists := fun q => q == "/srv/t.html",
    isFile := fun q => q == "/srv/t.html",
    readBytes := fun q => if q == "/srv/t.html" then utf8Encode "ab\x7bnope\x7dc" else [],
    readFails := fun _ => false }

/-- Request for `/t.html`. -/
def metaC7 : RequestMeta :=
  { path := "/t.html", clientHost := "127.0.0.1", clientPort := 40500,
    command := "GET", dateTime := "dt7" }

/-- Filesystem where only the root directory path (with trailing slash)
exists; in particular `index.html` is absent. -/
def fsC8 : FileSystem :=
  { pathExists := fun q => q == "/srv/",
    isFile := fun _ => false,
    readBytes := fun _ => [], readFails := fun _ => false }

/-- Request for `/`. -/
def metaC8 : RequestMeta :=
  { path := "/", clientHost := "127.0.0.1", clientPort := 40600,
    command := "GET", dateTime := "dt8" }

/-- Filesystem where reading the existing file `/srv/x.bin` raises `IOError`. -/
def fsC9 : FileSystem :=
  { pathExists := fun q => q == "/srv/x.bin",
    isFile := fun q => q == "/srv/x.bin",
    readBytes := fun _ => [],
    readFails := fun q => q == "/srv/x.bin" }

/-- Request for `/x.bin`. -/
def metaC9 : RequestMeta :=
  { path := "/x.bin", clientHost := "127.0.0.1", clientPort := 40700,
    command := "GET", dateTime := "dt9" }

/-! ### Claims -/

/-- Claim C1: the spec demands that a request path with `..` segments
whose joined path resolves outside the server root never returns file
content from outside the root.  The code has no such guard: at the
concrete request `/../secret.bin`, the joined path contains `..`, its
canonical form `/srv/secret.bin` lies outside the root `/srv/www`, and
`do_GET` nevertheless serves the outside file's bytes with status 200. -/
theorem c1_traversal_served_eval :
    resolvedFilePath "/srv/www" metaC1.path = "/srv/www/../secret.bin" ∧
    listInfix "..".data metaC1.path.data = true ∧
    normalizePosix "/srv/www/../secret.bin" = "/srv/secret.bin" ∧
    underRoot "/srv/www" (normalizePosix "/srv/www/../secret.bin") = false ∧
    doGET "/srv/www" fsC1 metaC1 =
      [{ status := 200, ctName := "Content-Type",
         contentType := "application/octet-stream",
         contentLength := 3, body := [1, 2, 3] }] :=
  ⟨by decide, by decide, by decide, by decide, rfl⟩

/-- Claim C2: every request resolving to an existing regular file is
claimed to yield a 200 response with exact Content-Length, the
extension-determined Content-Type, and the body bytes sent.  Evaluating
the code: for the existing `/notes.txt` the handler computes
`page`/`page_type` but writes no response at all (the send block is
inside the octet-stream `else` branch), while for `/data.bin` the
claimed response is indeed sent. -/
theorem c2_existing_file_eval :
    handleFile fsC2 metaC2 "/srv/notes.txt" =
      .ok { page := utf8Encode "hello", pageType := "text/plain", sent := [] } ∧
    doGET "/srv" fsC2 metaC2 = [] ∧
    doGET "/srv" fsC2 metaC2b =
      [{ status := 200, ctName := "Content-Type",
         contentType := "application/octet-stream",
         contentLength := 3, body := [0, 255, 7] }] :=
  ⟨rfl, rfl, rfl⟩

/-- Claim C3: every handled GET request is claimed to write exactly one
complete response.  Evaluating the code at a request for an existing
`.html` file: `do_GET` returns with zero responses written — the client
observes a handled request that produced no response. -/
theorem c3_zero_responses_eval :
    doGET "/srv" fsC3 metaC3 = [] ∧
    (doGET "/srv" fsC3 metaC3).length = 0 :=
  ⟨rfl, rfl⟩

/-- Claim C4: when `index.html` exists, requesting `/` is claimed to
return 200 with the templated `index.html` body.  Evaluating the code:
the template substitution is computed (the `path` placeholder becomes
`/`) but no response is written.  Moreover, with `index.html` absent the
resolution continues with the substituted `root/index.html` path — not
the original request path, whose join (the root directory itself)
exists — so the 404 fires on the index path. -/
theorem c4_default_page_eval :
    handleFile fsC4 metaC4 "/srv/index.html" =
      .ok { page := utf8Encode "<p>/</p>", pageType := "text/html", sent := [] } ∧
    doGET "/srv" fsC4 metaC4 = [] ∧
    resolvedFilePath "/srv" "/" = "/srv/index.html" ∧
    fsC4b.pathExists (osJoin "/srv" (pyLstrip "/")) = true ∧
    doGET "/srv" fsC4b metaC4 =
      [handleError metaC4 404 "Requested file does not exist."] :=
  ⟨rfl, rfl, by decide, by decide, rfl⟩

/-- Claim C5 (counterexample): for the absent `/missing.txt` the
response is a 404, but its body does not contain the claimed message
`'/missing.txt' not found` — `do_GET` uses its own message
`Requested file does not exist.`, not `case_no_file.act`'s text. -/
theorem c5_message_counterexample :
    doGET "/srv" fsC5 metaC5 =
      [handleError metaC5 404 "Requested file does not exist."] ∧
    (handleError metaC5 404 "Requested file does not exist.").status = 404 ∧
    listInfix (utf8Encode "\x27/missing.txt\x27 not found")
      (handleError metaC5 404 "Requested file does not exist.").body = false :=
  ⟨rfl, rfl, by decide⟩

/-- Claim C5 (amended): for every non-default request path whose joined
path does not exist, the response has status 404 and its body is the
rendered `Error_Page` embedding the literal requested path, with the
message `Requested file does not exist.`. -/
theorem c5_notfound_amended (root : String) (fs : FileSystem) (meta : RequestMeta)
    (hnd : isDefaultPath meta.path = false)
    (hne : fs.pathExists (osJoin root (pyLstrip meta.path)) = false) :
    doGET root fs meta =
      [handleError meta 404 "Requested file does not exist."] ∧
    (handleError meta 404 "Requested file does not exist.").status = 404 ∧
    (handleError meta 404 "Requested file does not exist.").body =
      utf8Encode (errorContent 404 meta.path "Requested file does not exist."
        meta.dateTime) ∧
    meta.path.data <:+:
      (errorContent 404 meta.path "Requested file does not exist."
        meta.dateTime).data := by
  have hfp : resolvedFilePath root meta.path = osJoin root (pyLstrip meta.path) := by
    simp [resolvedFilePath, hnd]
  refine ⟨?_, rfl, rfl, path_infix_errorContent _ _ _ _⟩
  unfold doGET
  simp [hfp, hne]

/-- Witness for C5 (amended) at the concrete request `/missing.txt`. -/
theorem c5_notfound_amended_witness :
    isDefaultPath metaC5.path = false ∧
    fsC5.pathExists (osJoin "/srv" (pyLstrip metaC5.path)) = false ∧
    doGET "/srv" fsC5 metaC5 =
      [handleError metaC5 404 "Requested file does not exist."] :=
  ⟨by decide, by decide,
   (c5_notfound_amended "/srv" fsC5 metaC5 (by decide) (by decide)).1⟩

/-- Claim C6 (counterexample): for the existing directory `/subdir` the
response is a 404, but its body does not contain the claimed message
`Unknown object '/subdir' or directory listing disabled.` — `do_GET`
uses its own message, not `case_always_fail.act`'s text. -/
theorem c6_message_counterexample :
    doGET "/srv" fsC6 metaC6 =
      [handleError metaC6 404
        "Path is not a file (directory listing not supported)."] ∧
    (handleError metaC6 404
      "Path is not a file (directory listing not supported).").status = 404 ∧
    listInfix
      (utf8Encode "Unknown object \x27/subdir\x27 or directory listing disabled.")
      (handleError metaC6 404
        "Path is not a file (directory listing not supported).").body = false :=
  ⟨rfl, rfl, by decide⟩

/-- Claim C6 (amended): for every request path resolving to an existing
filesystem object that is not a regular file, the response has status
404 and its body is the rendered `Error_Page` embedding the requested
path, with the message
`Path is not a file (directory listing not supported).`. -/
theorem c6_nonfile_amended (root : String) (fs : FileSystem) (meta : RequestMeta)
    (hex : fs.pathExists (resolvedFilePath root meta.path) = true)
    (hnf : fs.isFile (resolvedFilePath root meta.path) = false) :
    doGET root fs meta =
      [handleError meta 404
        "Path is not a file (directory listing not supported)."] ∧
    (handleError meta 404
      "Path is not a file (directory listing not supported).").status = 404 ∧
    (handleError meta 404
      "Path is not a file (directory listing not supported).").body =
      utf8Encode (errorContent 404 meta.path
        "Path is not a file (directory listing not supported)." meta.dateTime) ∧
    meta.path.data <:+:
      (errorContent 404 meta.path
        "Path is not a file (directory listing not supported)."
        meta.dateTime).data := by
  refine ⟨?_, rfl, rfl, path_infix_errorContent _ _ _ _⟩
  unfold doGET
  simp [hex, hnf]

/-- Witness for C6 (amended) at the concrete request `/subdir`. -/
theorem c6_nonfile_amended_witness :
    fsC6.pathExists (resolvedFilePath "/srv" metaC6.path) = true ∧
    fsC6.isFile (resolvedFilePath "/srv" metaC6.path) = false ∧
    doGET "/srv" fsC6 metaC6 =
      [handleError metaC6 404
        "Path is not a file (directory listing not supported)."] :=
  ⟨by decide, by decide,
   (c6_nonfile_amended "/srv" fsC6 metaC6 (by decide) (by decide)).1⟩

/-- Claim C7: for a request resolving to an existing `.html` file, the
file bytes are decoded as UTF-8 and templated via `str.format` with
exactly the five supported placeholders of `templateValues`; a decode
failure or an unsupported placeholder escapes as an exception and is
surfaced as a 500 response, while a successful substitution yields the
re-encoded templated page (which the buggy send block then never
writes, a fact recorded under C2-C4). -/
theorem c7_html_templating (root : String) (fs : FileSystem) (meta : RequestMeta)
    (hext : strEnds (resolvedFilePath root meta.path) ".html" = true)
    (hex : fs.pathExists (resolvedFilePath root meta.path) = true)
    (hf : fs.isFile (resolvedFilePath root meta.path) = true)
    (hr : fs.readFails (resolvedFilePath root meta.path) = false) :
    (utf8Decode (fs.readBytes (resolvedFilePath root meta.path)) = none →
      doGET root fs meta =
        [handleError meta 500
          ("An unexpected error occurred: " ++ excStr PyExc.unicodeDecodeError)]) ∧
    (∀ cs s, utf8Decode (fs.readBytes (resolvedFilePath root meta.path)) = some cs →
      pyFormat (templateValues meta) cs = .ok s →
      handleFile fs meta (resolvedFilePath root meta.path) =
        .ok { page := utf8Encode s, pageType := "text/html", sent := [] }) ∧
    (∀ cs e, utf8Decode (fs.readBytes (resolvedFilePath root meta.path)) = some cs →
      pyFormat (templateValues meta) cs = .error e →
      doGET root fs meta =
        [handleError meta 500 ("An unexpected error occurred: " ++ excStr e)]) := by
  refine ⟨?_, ?_, ?_⟩
  · intro hdec
    unfold doGET
    simp only [hex, hf]
    unfold handleFile
    simp [hr, hext, hdec]
  · intro cs s hdec hfmt
    unfold handleFile
    simp [hr, hext, hdec, hfmt]
  · intro cs e hdec hfmt
    unfold doGET
    simp only [hex, hf]
    unfold handleFile
    simp [hr, hext, hdec, hfmt]

/-- Witness for C7 at the concrete request `/t.html`, whose file holds
the unsupported placeholder `nope`: the request is surfaced as a 500. -/
theorem c7_html_templating_witness :
    strEnds (resolvedFilePath "/srv" metaC7.path) ".html" = true ∧
    utf8Decode (fsC7.readBytes (resolvedFilePath "/srv" metaC7.path)) =
      some ("ab\x7bnope\x7dc".data) ∧
    pyFormat (templateValues metaC7) ("ab\x7bnope\x7dc".data) =
      .error (PyExc.keyError "nope") ∧
    doGET "/srv" fsC7 metaC7 =
      [handleError metaC7 500
        ("An unexpected error occurred: " ++ excStr (PyExc.keyError "nope"))] :=
  ⟨by decide, by decide, rfl,
   (c7_html_templating "/srv" fsC7 metaC7 (by decide) (by decide) (by decide)
       (by decide)).2.2
     ("ab\x7bnope\x7dc".data) (PyExc.keyError "nope") (by decide) rfl⟩

set_option maxRecDepth 8000 in
/-- Claim C8 (counterexample): at the request `/` over a filesystem whose
root directory exists but has no `index.html`, the first `Cases` rule
whose test succeeds is `case_always_fail`, whose act sends the
`Unknown object` 404 — but `do_GET` (which never consults `Cases`)
sends the `Requested file does not exist.` 404 instead, so resolution
is not first-match evaluation of the (default-page, missing-resource,
existing-file, fallback) chain. -/
theorem c8_chain_counterexample :
    casesResolve "/srv" fsC8 "/" = CaseOutcome.alwaysFail ∧
    casesRun "/srv" fsC8 metaC8 =
      [handleError metaC8 404
        "Unknown object \x27/\x27 or directory listing disabled."] ∧
    doGET "/srv" fsC8 metaC8 =
      [handleError metaC8 404 "Requested file does not exist."] ∧
    doGET "/srv" fsC8 metaC8 ≠ casesRun "/srv" fsC8 metaC8 :=
  ⟨by decide, rfl, rfl, by decide⟩

/-- Claim C8 (amended): `do_GET` resolves every request by first-match
evaluation of its own inline short-circuiting chain — after rewriting
the default path to `root/index.html`, the checks (missing resource,
not a regular file, serve) are evaluated in order, the first check that
fires determines the outcome, and rules after the firing one are never
consulted (the result does not depend on them). -/
theorem c8_inline_first_match :
    (∀ root fs meta, doGET root fs meta =
      firstMatch getChain fs meta (resolvedFilePath root meta.path)) ∧
    (∀ pre (r : GetRule) post fs meta fp,
      (∀ r0 ∈ pre, r0.test fs fp = false) → r.test fs fp = true →
      firstMatch (pre ++ r :: post) fs meta fp = r.run fs meta fp) := by
  constructor
  · intro root fs meta
    unfold doGET
    cases h1 : fs.pathExists (resolvedFilePath root meta.path) <;>
      cases h2 : fs.isFile (resolvedFilePath root meta.path) <;>
        simp [h1, h2, firstMatch, getChain, ruleNoFile, ruleNotAFile, ruleServe]
  · intro pre r post fs meta fp hpre ht
    induction pre with
    | nil => simp [firstMatch, ht]
    | cons r0 rs ih =>
      have h0 : r0.test fs fp = false := hpre r0 (by simp)
      simpa [firstMatch, h0] using ih (fun r1 h1 => hpre r1 (by simp [h1]))

/-- Witness for C8 (amended) at the request `/` over `fsC8`: `do_GET`
agrees with the inline chain, and with the first test failing and the
second succeeding the chain's result is the second rule's action. -/
theorem c8_inline_first_match_witness :
    doGET "/srv" fsC8 metaC8 =
      firstMatch getChain fsC8 metaC8 (resolvedFilePath "/srv" metaC8.path) ∧
    firstMatch ([ruleNoFile] ++ ruleNotAFile :: [ruleServe]) fsC8 metaC8 "/srv/" =
      ruleNotAFile.run fsC8 metaC8 "/srv/" :=
  ⟨c8_inline_first_match.1 "/srv" fsC8 metaC8,
   c8_inline_first_match.2 [ruleNoFile] ruleNotAFile [ruleServe] fsC8 metaC8 "/srv/"
     (by intro r0 h0; simp only [List.mem_singleton] at h0; subst h0; decide)
     (by decide)⟩

/-- Claim C9: whenever an exception escapes `handle_file` during the
rendering of a resolved file (template `KeyError`/`ValueError`, decode
failure, or the `AttributeError` replacing a caught `IOError`), it is
caught at the `do_GET` boundary and converted into exactly one 500
response written to the client. -/
theorem c9_exception_single_500 (root : String) (fs : FileSystem)
    (meta : RequestMeta) (e : PyExc)
    (hex : fs.pathExists (resolvedFilePath root meta.path) = true)
    (hf : fs.isFile (resolvedFilePath root meta.path) = true)
    (he : handleFile fs meta (resolvedFilePath root meta.path) = .error e) :
    doGET root fs meta =
      [handleError meta 500 ("An unexpected error occurred: " ++ excStr e)] ∧
    (doGET root fs meta).length = 1 ∧
    (handleError meta 500 ("An unexpected error occurred: " ++ excStr e)).status
      = 500 := by
  have h1 : doGET root fs meta =
      [handleError meta 500 ("An unexpected error occurred: " ++ excStr e)] := by
    unfold doGET
    simp [hex, hf, he]
  exact ⟨h1, by rw [h1]; rfl, rfl⟩

/-- Witness for C9 at the concrete request `/x.bin`, whose read raises
`IOError`; the escaping `AttributeError` becomes a single 500. -/
theorem c9_exception_single_500_witness :
    handleFile fsC9 metaC9 (resolvedFilePath "/srv" metaC9.path) =
      .error (PyExc.attributeError
        "\x27RequestHandler\x27 object has no attribute \x27send_error_page\x27") ∧
    doGET "/srv" fsC9 metaC9 =
      [handleError metaC9 500 ("An unexpected error occurred: " ++
        excStr (PyExc.attributeError
          "\x27RequestHandler\x27 object has no attribute \x27send_error_page\x27"))] :=
  ⟨rfl,
   (c9_exception_single_500 "/srv" fsC9 metaC9
       (PyExc.attributeError
         "\x27RequestHandler\x27 object has no attribute \x27send_error_page\x27")
       (by decide) (by decide) rfl).1⟩

/-- Claim C10: the default-page test is `path == "/" or path.strip() == ""`,
so a request path consisting only of whitespace (neither empty nor `/`)
is resolved to `root/index.html` exactly like `/`. -/
theorem c10_whitespace_path_default (root p : String)
    (_h0 : p ≠ "") (_h1 : p ≠ "/") (hw : pyStrip p = "") :
    resolvedFilePath root p = osJoin root "index.html" ∧
    resolvedFilePath root p = resolvedFilePath root "/" := by
  have hd : isDefaultPath p = true := by simp [isDefaultPath, hw]
  have hd2 : isDefaultPath "/" = true := by decide
  simp [resolvedFilePath, hd, hd2]

/-- Witness for C10 at the whitespace-only path consisting of one space. -/
theorem c10_whitespace_path_default_witness :
    (" " ≠ "") ∧ (" " ≠ "/") ∧ pyStrip " " = "" ∧
    (resolvedFilePath "/srv" " " = osJoin "/srv" "index.html" ∧
     resolvedFilePath "/srv" " " = resolvedFilePath "/srv" "/") :=
  ⟨by decide, by decide, by decide,
   c10_whitespace_path_default "/srv" " " (by decide) (by decide) (by decide)⟩

end PyServer
